import Mathlib

/-!
Shallow embedding of the event-segmentation and KPI-aggregation engine of the
IoT machine-analytics dashboard (`app.py`), together with theorems settling
the specification claims about it.

Modelling choices:
* a telemetry row is a `Sample` with a timestamp in whole seconds since an
  epoch (`ℕ`), and rational `speed` and `quantity` values;
* pandas boolean columns become `Bool`-valued functions on samples;
* `(a != a.shift()).cumsum()` becomes `run_ids` (first row always counts as a
  change, so ids start at 1);
* `groupby` on the run-id column becomes chunking of the (order-preserving)
  filtered row list by equal ids — run ids are non-decreasing, so rows with
  equal ids are adjacent and adjacent chunking coincides with key grouping;
* Python/numpy `round` (banker's rounding, half to even) becomes
  `roundHalfEven`/`roundTo` on `ℚ`;
* `datetime.combine(date, time(h, m, s))` becomes `instant d h m s` in seconds.
-/

namespace Machine

/-- One telemetry row: parsed timestamp (seconds since epoch), speed and
cumulative produced quantity (`app.py` lines 82-83). -/
structure Sample where
  timestamp : ℕ
  speed : ℚ
  quantity : ℚ
deriving Repr, DecidableEq

instance : Inhabited Sample := ⟨⟨0, 0, 0⟩⟩

/-- `df['idle'] = df['speed'] <= 1` (line 95). -/
def is_idle (s : Sample) : Bool := decide (s.speed ≤ 1)

/-- `df['is_running'] = df['speed'] > 1` (line 98). -/
def is_running (s : Sample) : Bool := decide (1 < s.speed)

/-- `df['is_low_speed'] = (df['speed'] < mc_min_speed_req) & (df['speed'] > 1)`
(line 101); `req` is the sidebar `mc_min_speed_req` threshold. -/
def is_low_speed (req : ℚ) (s : Sample) : Bool :=
  decide (s.speed < req) && decide (1 < s.speed)

/-- `df['timestamp'].dt.date` (line 104), as a day number. -/
def date_of (s : Sample) : ℕ := s.timestamp / 86400

/-- `df['timestamp'].dt.hour` (line 106). -/
def hour_of (s : Sample) : ℕ := s.timestamp % 86400 / 3600

/-- First row of a data frame (`iloc[0]`; default value only read on empty
frames, which the source guards against). -/
def firstS (df : List Sample) : Sample := df.headD default

/-- Last row of a data frame (`iloc[-1]`). -/
def lastS (df : List Sample) : Sample := df.getLastD default

/-- `(df['timestamp'].iloc[-1] - df['timestamp'].iloc[0]).total_seconds() / 60
if len(df) > 1 else 0` (line 113). -/
def total_minutes (df : List Sample) : ℚ :=
  if 1 < df.length then
    (((lastS df).timestamp : ℚ) - ((firstS df).timestamp : ℚ)) / 60
  else 0

/-- `running_minutes = df['is_running'].sum()` (line 114): the sum of a boolean
column is the number of `True` rows, i.e. the running-sample count. -/
def running_minutes (df : List Sample) : ℕ := df.countP is_running

/-- `uptime_percent = 100 * running_minutes / total_minutes if total_minutes
else 0` (line 115). -/
def uptime_percent (df : List Sample) : ℚ :=
  if total_minutes df = 0 then 0
  else 100 * (running_minutes df : ℚ) / total_minutes df

/-- `avg_speed = df.loc[df['is_running'], 'speed'].mean() if running_minutes
else 0` (line 116). -/
def avg_speed (df : List Sample) : ℚ :=
  if running_minutes df = 0 then 0
  else
    let speeds := (df.filter is_running).map Sample.speed
    speeds.sum / (speeds.length : ℚ)

/-- `total_production = df['quantity'].iloc[-1] - df['quantity'].iloc[0] if
len(df) > 1 else 0` (line 117). -/
def total_production (df : List Sample) : ℚ :=
  if 1 < df.length then (lastS df).quantity - (firstS df).quantity else 0

/-! ### Run segmentation (lines 122 and 132)

`(col != col.shift()).cumsum()`: the first row is always unequal to the
shifted `NaN`, so it contributes 1; each later row contributes 1 exactly when
its tag differs from the previous row's tag. -/

/-- Tail of the cumulative-sum of change indicators: `prev` is the previous
row's tag and `n` the previous row's id. -/
def run_ids_from : Bool → ℕ → List Bool → List ℕ
  | _, _, [] => []
  | prev, n, b :: rest =>
    (if b = prev then n else n + 1) ::
      run_ids_from b (if b = prev then n else n + 1) rest

/-- `(col != col.shift()).cumsum()` over a whole tag column. -/
def run_ids : List Bool → List ℕ
  | [] => []
  | b :: rest => 1 :: run_ids_from b 1 rest

/-- Naive scan counting maximal contiguous same-tag groups, used as the
reference the segmenter is compared against. -/
def num_groups : List Bool → ℕ
  | [] => 0
  | [_] => 1
  | a :: b :: rest => (if a = b then 0 else 1) + num_groups (b :: rest)

/-- Number of adjacent tag changes in `prev :: rest`. -/
def num_changes : Bool → List Bool → ℕ
  | _, [] => 0
  | prev, b :: rest => (if b = prev then 0 else 1) + num_changes b rest

/-! ### Rounding (Python `round` / pandas `.round`: half to even) -/

/-- Round a rational to the nearest integer, ties to the even integer
(the rounding used by Python's `round` and numpy/pandas `.round`). -/
def roundHalfEven (q : ℚ) : ℤ :=
  let f := ⌊q⌋
  let r := q - (f : ℚ)
  if r < 1 / 2 then f
  else if 1 / 2 < r then f + 1
  else if f % 2 = 0 then f else f + 1

/-- `round(q, d)`: round to `d` decimal places, ties to even. -/
def roundTo (d : ℕ) (q : ℚ) : ℚ := (roundHalfEven (q * 10 ^ d) : ℚ) / 10 ^ d

/-! ### Event aggregation (lines 122-140)

`df[df[tag]].groupby(group_col).agg(...)`: attach run ids, keep the rows whose
tag is true, group rows with equal run id (ids are non-decreasing, so equal
ids are adjacent and chunking by adjacent equality is the same grouping), and
aggregate each group. -/

/-- Chunk a run of (row, run-id) pairs by adjacent equal ids. -/
def chunk_pairs : List (Sample × ℕ) → List (List (Sample × ℕ))
  | [] => []
  | p :: rest =>
    match chunk_pairs rest with
    | [] => [[p]]
    | [] :: gs => [p] :: [] :: gs
    | (q :: g) :: gs =>
      if p.2 = q.2 then (p :: q :: g) :: gs else [p] :: (q :: g) :: gs

/-- The maximal runs of `tag`-true rows of `df`, via the run-id column
(`df[df[tag]].groupby(id_col)`). -/
def group_rows (tag : Sample → Bool) (df : List Sample) : List (List Sample) :=
  let rows := (df.zip (run_ids (df.map tag))).filter (fun p => tag p.1)
  (chunk_pairs rows).map (List.map Prod.fst)

/-- One row of the idle-events table: `start=('timestamp','first')`,
`end=('timestamp','last')`, elapsed-minutes duration, mean speed
(lines 123-128). -/
structure Event where
  start : ℕ
  endT : ℕ
  duration : ℚ
  avg_speed : ℚ
deriving Repr, DecidableEq

/-- Aggregation of one idle run (the `agg` of lines 123-128): duration is
`(x.iloc[-1] - x.iloc[0]).total_seconds() / 60`, unrounded. -/
def mk_idle_event (g : List Sample) : Event :=
  { start := (firstS g).timestamp
    endT := (lastS g).timestamp
    duration := (((lastS g).timestamp : ℚ) - ((firstS g).timestamp : ℚ)) / 60
    avg_speed := (g.map Sample.speed).sum / ((g.length : ℚ)) }

/-- `idle_events` (lines 122-128): one record per maximal idle run. -/
def idle_events (df : List Sample) : List Event :=
  (group_rows is_idle df).map mk_idle_event

/-- `long_idles = idle_events[idle_events['duration'] >= idle_time]`
(line 129); `idleT` is the sidebar idle-time threshold in minutes. -/
def long_idles (idleT : ℚ) (df : List Sample) : List Event :=
  (idle_events df).filter (fun e => decide (idleT ≤ e.duration))

/-- Smallest element of a speed column (pandas `min`; only read on nonempty
groups). -/
def qMin : List ℚ → ℚ
  | [] => 0
  | [x] => x
  | x :: y :: rest => min x (qMin (y :: rest))

/-- Largest element of a speed column (pandas `max`; only read on nonempty
groups). -/
def qMax : List ℚ → ℚ
  | [] => 0
  | [x] => x
  | x :: y :: rest => max x (qMax (y :: rest))

/-- One row of the low-speed-events table (lines 133-140). -/
structure LowEvent where
  start : ℕ
  endT : ℕ
  duration : ℚ
  min_speed : ℚ
  max_speed : ℚ
  avg_speed : ℚ
deriving Repr, DecidableEq

/-- Aggregation of one low-speed run (the `agg` of lines 133-140): duration is
`round((x.iloc[-1] - x.iloc[0]).total_seconds() / 60, 4)`. -/
def mk_low_event (g : List Sample) : LowEvent :=
  { start := (firstS g).timestamp
    endT := (lastS g).timestamp
    duration := roundTo 4 ((((lastS g).timestamp : ℚ) - ((firstS g).timestamp : ℚ)) / 60)
    min_speed := qMin (g.map Sample.speed)
    max_speed := qMax (g.map Sample.speed)
    avg_speed := (g.map Sample.speed).sum / ((g.length : ℚ)) }

/-- `low_speed_events_all` (lines 132-140): one record per maximal low-speed
run. -/
def low_speed_events_all (req : ℚ) (df : List Sample) : List LowEvent :=
  (group_rows (is_low_speed req) df).map mk_low_event

/-! ### Window filtering (lines 165-169 and 185-197) -/

/-- `datetime.combine(date d, time(h, m, s))` as seconds since the epoch. -/
def instant (d h m s : ℕ) : ℕ := d * 86400 + h * 3600 + m * 60 + s

/-- `filtered_df` (line 167): samples whose date lies in `[sd, ed]` and whose
hour of day lies in `[sh, eh]`. -/
def filtered_df (sd ed sh eh : ℕ) (df : List Sample) : List Sample :=
  df.filter fun s =>
    decide (sd ≤ date_of s) && decide (date_of s ≤ ed) &&
    decide (sh ≤ hour_of s) && decide (hour_of s ≤ eh)

/-- `display_idle_events = idle_events[idle_events['duration'] >= idle_time]`
(line 185). -/
def display_idle_events (idleT : ℚ) (df : List Sample) : List Event :=
  (idle_events df).filter (fun e => decide (idleT ≤ e.duration))

/-- `filtered_idle_events` (lines 187-195): qualifying idle events fully
contained between `datetime.combine(start_date, time(start_hour, 0))` and
`datetime.combine(end_date, time(end_hour, 59, 59))`. -/
def filtered_idle_events (idleT : ℚ) (sd ed sh eh : ℕ) (df : List Sample) :
    List Event :=
  (display_idle_events idleT df).filter fun e =>
    decide (instant sd sh 0 0 ≤ e.start) && decide (e.endT ≤ instant ed eh 59 59)

/-! ### Hourly rollup (lines 213-219) -/

/-- One row of the hourly performance table, the five displayed columns of
line 220. -/
structure HourStats where
  avg_speed : ℚ
  max_speed : ℚ
  min_speed : ℚ
  uptime_percent : ℚ
  production : ℚ
deriving Repr, DecidableEq

/-- The `agg` plus `.round(2)` of lines 213-217 on one hour's rows, followed
by `Uptime_Percent = (Uptime_Ratio * 100).round(1)` (line 219); only applied
to nonempty hour groups. -/
def hourly_stat (rows : List Sample) : HourStats :=
  let speeds := rows.map Sample.speed
  { avg_speed := roundTo 2 (speeds.sum / (speeds.length : ℚ))
    max_speed := roundTo 2 (qMax speeds)
    min_speed := roundTo 2 (qMin speeds)
    uptime_percent :=
      roundTo 1 (roundTo 2 ((rows.countP is_running : ℚ) / (rows.length : ℚ)) * 100)
    production :=
      roundTo 2 (if 1 < rows.length then (lastS rows).quantity - (firstS rows).quantity else 0) }

/-- The rows of the filtered window falling in hour-of-day `h` (one
`groupby('hour')` group, in row order). -/
def hour_rows (sd ed sh eh h : ℕ) (df : List Sample) : List Sample :=
  (filtered_df sd ed sh eh df).filter (fun s => decide (hour_of s = h))

/-- `hourly_stats = filtered_df.groupby('hour').agg(...)` (lines 213-219) as a
mapping from hour of day to that hour's statistics; hours with no rows in the
filtered window are absent (`none`). -/
def hourly_stats (sd ed sh eh : ℕ) (df : List Sample) (h : ℕ) : Option HourStats :=
  if (hour_rows sd ed sh eh h df).isEmpty then none
  else some (hourly_stat (hour_rows sd ed sh eh h df))

/-! ### The rendered dashboard (headline KPIs plus window-dependent tables) -/

/-- Everything the dashboard derives from one loaded file and one choice of
sidebar/window parameters: the four headline KPI values of lines 151-154 and
the window-dependent outputs of lines 167-219. -/
structure Dashboard where
  uptime_percent : ℚ
  avg_speed : ℚ
  total_production : ℚ
  idle_event_count : ℕ
  low_speed_table : List LowEvent
  filtered_samples : List Sample
  filtered_events : List Event
deriving Repr

/-- One full render pass of the dashboard for data `df`, thresholds `req`
(min-speed requirement) and `idleT` (idle threshold in minutes), and window
`(sd, ed, sh, eh)`. -/
def render (req idleT : ℚ) (df : List Sample) (sd ed sh eh : ℕ) : Dashboard :=
  { uptime_percent := uptime_percent df
    avg_speed := avg_speed df
    total_production := total_production df
    idle_event_count := (long_idles idleT df).length
    low_speed_table := low_speed_events_all req df
    filtered_samples := filtered_df sd ed sh eh df
    filtered_events := filtered_idle_events idleT sd ed sh eh df }

/-! ### Claim-side definitions, used only to compare spec wording with the
source (refinement / counterexample material) -/

/-- The claim's formula for `uptime_percent`: `100 × running-sample count /
total sample count`, 0 on an empty window. Stated from the spec's words, to be
compared with the source's `uptime_percent`. -/
def claimed_uptime_percent (df : List Sample) : ℚ :=
  if df.length = 0 then 0 else 100 * (df.countP is_running : ℚ) / (df.length : ℚ)

/-- The claim's formula for an hour's uptime percent: mean of `is_running`
times 100, rounded to 2 decimal places. Stated from the spec's words, to be
compared with the source's `hourly_stat`. -/
def claimed_hour_uptime (rows : List Sample) : ℚ :=
  roundTo 2 ((rows.countP is_running : ℚ) / (rows.length : ℚ) * 100)

/-! ### Concrete data frames used to instantiate the claims -/

/-- Two running samples 4 minutes apart. -/
def dfC1 : List Sample := [⟨0, 5, 0⟩, ⟨240, 5, 0⟩]

/-- Two low-speed samples one second apart: one low-speed run whose elapsed
time, 1/60 minute, is not representable in 4 decimal places. -/
def dfLS : List Sample := [⟨0, 5, 0⟩, ⟨1, 5, 0⟩]

/-- One idle run from 00:59:00 to 01:01:00: it straddles the boundary of the
hour-0 window. -/
def dfC5 : List Sample := [⟨3540, 0, 0⟩, ⟨3660, 0, 0⟩]

/-- A window holding a single (idle) sample. -/
def dfC6 : List Sample := [⟨0, 0, 0⟩]

/-- One idle run lasting exactly 10 minutes. -/
def dfC7 : List Sample := [⟨0, 0, 0⟩, ⟨600, 0, 0⟩]

/-- Three samples in hour 0, exactly one of them running: the hour's
`is_running` mean is 1/3. -/
def dfC8 : List Sample := [⟨0, 5, 0⟩, ⟨60, 1, 0⟩, ⟨120, 1, 0⟩]

/-! ## Helper lemmas -/

lemma run_ids_from_length (rest : List Bool) (prev : Bool) (n : ℕ) :
    (run_ids_from prev n rest).length = rest.length := by
  induction rest generalizing prev n with
  | nil => rfl
  | cons b rest ih => simp [run_ids_from, ih]

lemma insert_Icc_left (a b : ℕ) (h : a ≤ b) :
    insert a (Finset.Icc (a + 1) b) = Finset.Icc a b := by
  ext x
  simp only [Finset.mem_insert, Finset.mem_Icc]
  omega

lemma run_ids_from_toFinset (rest : List Bool) (prev : Bool) (n : ℕ) :
    (n :: run_ids_from prev n rest).toFinset =
      Finset.Icc n (n + num_changes prev rest) := by
  induction rest generalizing prev n with
  | nil => simp [run_ids_from, num_changes]
  | cons b rest ih =>
    by_cases hb : b = prev
    · rw [show run_ids_from prev n (b :: rest) = n :: run_ids_from b n rest by
        simp [run_ids_from, hb]]
      rw [List.toFinset_cons, List.toFinset_cons, Finset.insert_idem,
        ← List.toFinset_cons, ih b n]
      have : num_changes prev (b :: rest) = num_changes b rest := by
        simp [num_changes, hb]
      rw [this]
    · rw [show run_ids_from prev n (b :: rest) =
          (n + 1) :: run_ids_from b (n + 1) rest by simp [run_ids_from, hb]]
      rw [List.toFinset_cons, ih b (n + 1), insert_Icc_left _ _ (by omega)]
      have : num_changes prev (b :: rest) = 1 + num_changes b rest := by
        simp [num_changes, hb]
      rw [this]
      congr 1
      omega

lemma num_groups_cons (b : Bool) (rest : List Bool) :
    num_groups (b :: rest) = 1 + num_changes b rest := by
  induction rest generalizing b with
  | nil => rfl
  | cons c rest ih =>
    have hc := ih c
    by_cases h : b = c
    · subst h
      simp [num_groups, num_changes, hc]
    · have h2 : ¬ c = b := fun hcb => h hcb.symm
      simp [num_groups, num_changes, h, h2, hc]

lemma run_ids_from_adj (rest : List Bool) (prev : Bool) (n i : ℕ)
    (h : i + 1 < rest.length + 1) :
    ((n :: run_ids_from prev n rest).getD (i + 1) 0 =
        (n :: run_ids_from prev n rest).getD i 0 ↔
      (prev :: rest).getD (i + 1) true = (prev :: rest).getD i true) := by
  induction rest generalizing prev n i with
  | nil =>
    simp only [List.length_nil] at h
    omega
  | cons b rest ih =>
    match i with
    | 0 =>
      by_cases hb : b = prev
      · simp [run_ids_from, hb]
      · simp [run_ids_from, hb]
    | j + 1 =>
      have h2 : j + 1 < rest.length + 1 := by
        simp only [List.length_cons] at h
        omega
      simpa [run_ids_from] using ih b (if b = prev then n else n + 1) j h2

/-! ## Claim theorems -/

/-- C2: over any ordered sample sequence and any boolean tag column, the run
segmenter (`(col != col.shift()).cumsum()`, lines 122 and 132) produces one id
per sample, adjacent ids are equal exactly when the adjacent tag values are
equal (so ids are constant within a maximal contiguous same-tag group and
change at every tag-value change), and the number of distinct ids equals the
number of maximal contiguous same-tag groups of the sequence. -/
theorem c2_segmenter (tags : List Bool) :
    (run_ids tags).length = tags.length ∧
    (∀ i, i + 1 < tags.length →
      ((run_ids tags).getD (i + 1) 0 = (run_ids tags).getD i 0 ↔
        tags.getD (i + 1) true = tags.getD i true)) ∧
    (run_ids tags).toFinset.card = num_groups tags := by
  match tags with
  | [] =>
    refine ⟨rfl, ?_, rfl⟩
    intro i h
    simp only [List.length_nil] at h
    omega
  | b :: rest =>
    refine ⟨?_, ?_, ?_⟩
    · simp [run_ids, run_ids_from_length]
    · intro i h
      exact run_ids_from_adj rest b 1 i (by simpa using h)
    · rw [run_ids, run_ids_from_toFinset, Nat.card_Icc, num_groups_cons]
      omega

/-- C2 witness: the segmenter evaluated on the tag column
`[true, true, false]`: two distinct ids for two maximal groups, and the first
two equal tags share an id. -/
theorem c2_witness :
    (run_ids [true, true, false]).toFinset.card = num_groups [true, true, false] ∧
    ((run_ids [true, true, false]).getD 1 0 = (run_ids [true, true, false]).getD 0 0 ↔
      ([true, true, false] : List Bool).getD 1 true =
        ([true, true, false] : List Bool).getD 0 true) :=
  ⟨(c2_segmenter [true, true, false]).2.2,
   (c2_segmenter [true, true, false]).2.1 0 (by decide)⟩

/-- C3: for every sample, `is_idle` holds iff speed ≤ 1, `is_running` holds
iff speed > 1 (so exactly one of the two holds), `is_low_speed` holds iff
1 < speed < min-speed requirement (hence implies `is_running`), and a
requirement ≤ 1 admits no low-speed sample (lines 95-101). -/
theorem c3_classifier (req : ℚ) (s : Sample) :
    (is_idle s = true ↔ s.speed ≤ 1) ∧
    (is_running s = true ↔ 1 < s.speed) ∧
    (is_idle s = true ↔ ¬ is_running s = true) ∧
    (is_low_speed req s = true ↔ 1 < s.speed ∧ s.speed < req) ∧
    (is_low_speed req s = true → is_running s = true) ∧
    (req ≤ 1 → is_low_speed req s = false) := by
  refine ⟨by simp [is_idle], by simp [is_running], ?_, ?_, ?_, ?_⟩
  · simp [is_idle, is_running]
  · simp [is_low_speed, and_comm]
  · simp only [is_low_speed, is_running, Bool.and_eq_true, decide_eq_true_eq]
    exact fun h => by simpa using h.2
  · intro hreq
    simp only [is_low_speed, Bool.and_eq_false_iff, decide_eq_false_iff_not, not_lt]
    by_cases hs : s.speed ≤ 1
    · exact Or.inr hs
    · exact Or.inl (le_trans hreq (le_of_not_le hs))

/-- C3 witness: a sample with speed 5 and requirement 10 is low-speed, hence
running, and not idle. -/
theorem c3_witness :
    is_running (⟨0, 5, 0⟩ : Sample) = true ∧
    is_low_speed 10 (⟨0, 5, 0⟩ : Sample) = true ∧
    is_idle (⟨0, 5, 0⟩ : Sample) = false :=
  ⟨(c3_classifier 10 ⟨0, 5, 0⟩).2.2.2.2.1 (by decide), by decide, by decide⟩

/-- C6: on a window of at most one sample, `total_minutes` and
`total_production` are 0; whenever the elapsed time is 0, `uptime_percent` is
0; whenever no sample is running, `avg_speed` is 0 (the `if ... else 0` guards
of lines 113-117). All four KPI functions are total, so no such input raises
or produces a non-number. -/
theorem c6_degenerate (df : List Sample) :
    (df.length ≤ 1 →
      total_minutes df = 0 ∧ total_production df = 0 ∧ uptime_percent df = 0) ∧
    (total_minutes df = 0 → uptime_percent df = 0) ∧
    (df.countP is_running = 0 → avg_speed df = 0) := by
  refine ⟨fun h => ?_, fun h => ?_, fun h => ?_⟩
  · have h2 : ¬ 1 < df.length := by omega
    refine ⟨by simp [total_minutes, h2], by simp [total_production, h2], ?_⟩
    simp [uptime_percent, total_minutes, h2]
  · simp [uptime_percent, h]
  · simp [avg_speed, running_minutes, h]

/-- C6 witness: a one-sample idle window has all four KPIs equal to 0. -/
theorem c6_witness :
    total_minutes dfC6 = 0 ∧ total_production dfC6 = 0 ∧
    uptime_percent dfC6 = 0 ∧ avg_speed dfC6 = 0 :=
  ⟨((c6_degenerate dfC6).1 (by decide)).1,
   ((c6_degenerate dfC6).1 (by decide)).2.1,
   ((c6_degenerate dfC6).1 (by decide)).2.2,
   (c6_degenerate dfC6).2.2 (by decide)⟩

/-- C1 counterexample: on two running samples 4 minutes apart the source
(line 115) divides the running-sample count by the elapsed minutes, giving
50, while the claim's sample-count ratio gives 100. -/
theorem c1_counterexample :
    uptime_percent dfC1 = 50 ∧ claimed_uptime_percent dfC1 = 100 ∧
    (50 : ℚ) ≠ 100 := by
  norm_num [uptime_percent, claimed_uptime_percent, total_minutes, running_minutes,
    dfC1, lastS, firstS, is_running]

/-- C1 (amended): `uptime_percent` is 100 times the count of running samples
divided by the elapsed wall-clock minutes from the first to the last sample of
the window (`total_minutes`), not by the sample count; it evaluates to 0
whenever the elapsed time is 0 (in particular on empty and one-sample
windows). -/
theorem c1_uptime (df : List Sample) :
    (total_minutes df = 0 → uptime_percent df = 0) ∧
    (total_minutes df ≠ 0 →
      uptime_percent df = 100 * (df.countP is_running : ℚ) / total_minutes df) ∧
    (1 < df.length → ((firstS df).timestamp : ℚ) ≠ ((lastS df).timestamp : ℚ) →
      uptime_percent df =
        100 * (df.countP is_running : ℚ) * 60 /
          (((lastS df).timestamp : ℚ) - ((firstS df).timestamp : ℚ))) := by
  refine ⟨fun h => by simp [uptime_percent, h], fun h => by
    simp [uptime_percent, h, running_minutes], fun hlen hts => ?_⟩
  have htm : total_minutes df =
      (((lastS df).timestamp : ℚ) - ((firstS df).timestamp : ℚ)) / 60 := by
    simp [total_minutes, hlen]
  have hne : (((lastS df).timestamp : ℚ) - ((firstS df).timestamp : ℚ)) ≠ 0 :=
    sub_ne_zero.mpr (fun hc => hts hc.symm)
  rw [uptime_percent, htm, running_minutes]
  rw [if_neg (by exact div_ne_zero hne (by norm_num))]
  rw [div_div_eq_mul_div]

/-- C1 witness: on two running samples 4 minutes apart the amended formula
applies and yields `100 · 2 · 60 / 240 = 50`. -/
theorem c1_witness :
    uptime_percent dfC1 =
      100 * (dfC1.countP is_running : ℚ) * 60 /
        (((lastS dfC1).timestamp : ℚ) - ((firstS dfC1).timestamp : ℚ)) :=
  (c1_uptime dfC1).2.2 (by decide) (by decide)

/-- C7: an idle run is in the qualifying deliverable (`long_idles`, line 129,
and the identical `display_idle_events`, line 185) exactly when its duration
is at least the idle threshold — the boundary duration qualifies — and the
KPI count of line 154 counts exactly those events. -/
theorem c7_threshold (idleT : ℚ) (df : List Sample) (e : Event) :
    (e ∈ long_idles idleT df ↔ e ∈ idle_events df ∧ idleT ≤ e.duration) ∧
    display_idle_events idleT df = long_idles idleT df ∧
    (long_idles idleT df).length =
      (idle_events df).countP (fun e => decide (idleT ≤ e.duration)) := by
  refine ⟨?_, rfl, ?_⟩
  · simp [long_idles, List.mem_filter]
  · rw [long_idles, ← List.countP_eq_length_filter]

/-- C7 witness: an idle run of exactly 10 minutes qualifies under a 10-minute
threshold (boundary inclusive). -/
theorem c7_witness :
    (⟨0, 600, 10, 0⟩ : Event) ∈ long_idles 10 dfC7 :=
  (c7_threshold 10 dfC7 ⟨0, 600, 10, 0⟩).1.mpr
    ⟨by norm_num [idle_events, group_rows, run_ids, run_ids_from, is_idle,
        chunk_pairs, mk_idle_event, firstS, lastS, dfC7],
     by norm_num⟩

/-- C5: a qualifying idle event appears in the window-filtered idle-events
table (lines 187-195) iff its start is at or after
`(start_date, start_hour, 00:00)` and its end at or before
`(end_date, end_hour, 59:59)`; an event straddling either boundary is
excluded (full containment, not overlap). -/
theorem c5_window (idleT : ℚ) (sd ed sh eh : ℕ) (df : List Sample) (e : Event) :
    (e ∈ filtered_idle_events idleT sd ed sh eh df ↔
      e ∈ display_idle_events idleT df ∧
        instant sd sh 0 0 ≤ e.start ∧ e.endT ≤ instant ed eh 59 59) ∧
    (e.start < instant sd sh 0 0 ∨ instant ed eh 59 59 < e.endT →
      e ∉ filtered_idle_events idleT sd ed sh eh df) := by
  constructor
  · simp [filtered_idle_events, List.mem_filter]
  · intro h hmem
    simp only [filtered_idle_events, List.mem_filter, Bool.and_eq_true,
      decide_eq_true_eq] at hmem
    rcases h with h | h
    · omega
    · omega

/-- C5 witness: an idle event spanning 00:59:00-01:01:00 is a qualifying idle
event but straddles the end of the hour-0 window `(day 0, hours 0-0)`, whose
end instant is 00:59:59, so it is excluded from the filtered table. -/
theorem c5_witness :
    (⟨3540, 3660, 2, 0⟩ : Event) ∈ display_idle_events 1 dfC5 ∧
    (⟨3540, 3660, 2, 0⟩ : Event) ∉ filtered_idle_events 1 0 0 0 0 dfC5 :=
  ⟨by norm_num [display_idle_events, idle_events, group_rows, run_ids, run_ids_from,
      is_idle, chunk_pairs, mk_idle_event, firstS, lastS, dfC5, List.filter],
   (c5_window 1 0 0 0 0 dfC5 ⟨3540, 3660, 2, 0⟩).2 (Or.inr (by decide))⟩

/-- C9: the four headline KPI values of lines 151-154 (`uptime_percent`,
`avg_speed`, `total_production`, and the qualifying-idle-event count) are
computed over the full sample sequence before window filtering (lines 113-129
precede lines 160-169) and so are identical for any two choices of window
parameters. -/
theorem c9_headline (req idleT : ℚ) (df : List Sample)
    (sd1 ed1 sh1 eh1 sd2 ed2 sh2 eh2 : ℕ) :
    (render req idleT df sd1 ed1 sh1 eh1).uptime_percent =
      (render req idleT df sd2 ed2 sh2 eh2).uptime_percent ∧
    (render req idleT df sd1 ed1 sh1 eh1).avg_speed =
      (render req idleT df sd2 ed2 sh2 eh2).avg_speed ∧
    (render req idleT df sd1 ed1 sh1 eh1).total_production =
      (render req idleT df sd2 ed2 sh2 eh2).total_production ∧
    (render req idleT df sd1 ed1 sh1 eh1).idle_event_count =
      (render req idleT df sd2 ed2 sh2 eh2).idle_event_count :=
  ⟨rfl, rfl, rfl, rfl⟩

/-- C10: low-speed event durations are the elapsed minutes rounded to 4
decimal places (`round(..., 4)`, line 136) while idle event durations are the
unrounded elapsed minutes (line 126); apart from that rounding both follow the
same last-minus-first-timestamp formula over their runs. -/
theorem c10_durations (req : ℚ) (df : List Sample) :
    ((low_speed_events_all req df).map LowEvent.duration =
      (group_rows (is_low_speed req) df).map fun g =>
        roundTo 4 ((((lastS g).timestamp : ℚ) - ((firstS g).timestamp : ℚ)) / 60)) ∧
    ((idle_events df).map Event.duration =
      (group_rows is_idle df).map fun g =>
        (((lastS g).timestamp : ℚ) - ((firstS g).timestamp : ℚ)) / 60) ∧
    (∀ e ∈ low_speed_events_all req df,
      e.duration = roundTo 4 (((e.endT : ℚ) - (e.start : ℚ)) / 60)) ∧
    (∀ e ∈ idle_events df, e.duration = ((e.endT : ℚ) - (e.start : ℚ)) / 60) := by
  refine ⟨?_, ?_, ?_, ?_⟩
  · rw [low_speed_events_all, List.map_map]
    rfl
  · rw [idle_events, List.map_map]
    rfl
  · intro e he
    rw [low_speed_events_all, List.mem_map] at he
    obtain ⟨g, _, rfl⟩ := he
    rfl
  · intro e he
    rw [idle_events, List.mem_map] at he
    obtain ⟨g, _, rfl⟩ := he
    rfl

/-- C10 witness: the one low-speed run of `dfLS` (two samples one second
apart) yields the duration `round(1/60, 4) = 0.0167`. -/
theorem c10_witness :
    (⟨0, 1, 167 / 10000, 5, 5, 5⟩ : LowEvent).duration =
      roundTo 4 ((((⟨0, 1, 167 / 10000, 5, 5, 5⟩ : LowEvent).endT : ℚ) -
        ((⟨0, 1, 167 / 10000, 5, 5, 5⟩ : LowEvent).start : ℚ)) / 60) :=
  (c10_durations 10 dfLS).2.2.1 ⟨0, 1, 167 / 10000, 5, 5, 5⟩
    (by norm_num [low_speed_events_all, group_rows, run_ids, run_ids_from,
      is_low_speed, chunk_pairs, mk_low_event, firstS, lastS, dfLS, qMin, qMax,
      roundTo, roundHalfEven])

/-- C4 counterexample: the low-speed run of `dfLS` spans 1 second, i.e. 1/60
minute, but the reported duration is `round(1/60, 4) = 167/10000 ≠ 1/60`, so
not every event's duration equals its elapsed time exactly. -/
theorem c4_counterexample :
    (⟨0, 1, 167 / 10000, 5, 5, 5⟩ : LowEvent) ∈ low_speed_events_all 10 dfLS ∧
    ¬ ((⟨0, 1, 167 / 10000, 5, 5, 5⟩ : LowEvent).duration =
        (((1 : ℕ) : ℚ) - ((0 : ℕ) : ℚ)) / 60) := by
  constructor
  · norm_num [low_speed_events_all, group_rows, run_ids, run_ids_from,
      is_low_speed, chunk_pairs, mk_low_event, firstS, lastS, dfLS, qMin, qMax,
      roundTo, roundHalfEven]
  · norm_num

/-- C4 (amended): every idle event's duration is exactly the elapsed time from
the run's first to its last sample in minutes; every low-speed event's
duration is that elapsed time rounded to 4 decimal places; in both tables a
single-sample run has duration exactly 0. -/
theorem c4_duration (req : ℚ) (df : List Sample) :
    (∀ g ∈ group_rows is_idle df,
      (mk_idle_event g).start = (firstS g).timestamp ∧
      (mk_idle_event g).endT = (lastS g).timestamp ∧
      (mk_idle_event g).duration =
        (((lastS g).timestamp : ℚ) - ((firstS g).timestamp : ℚ)) / 60 ∧
      (g.length = 1 → (mk_idle_event g).duration = 0)) ∧
    (∀ g ∈ group_rows (is_low_speed req) df,
      (mk_low_event g).start = (firstS g).timestamp ∧
      (mk_low_event g).endT = (lastS g).timestamp ∧
      (mk_low_event g).duration =
        roundTo 4 ((((lastS g).timestamp : ℚ) - ((firstS g).timestamp : ℚ)) / 60) ∧
      (g.length = 1 → (mk_low_event g).duration = 0)) := by
  constructor
  · intro g _
    refine ⟨rfl, rfl, rfl, fun hg => ?_⟩
    rcases g with _ | ⟨s, _ | ⟨t, g⟩⟩
    · simp at hg
    · simp [mk_idle_event, firstS, lastS]
    · simp at hg
  · intro g _
    refine ⟨rfl, rfl, rfl, fun hg => ?_⟩
    rcases g with _ | ⟨s, _ | ⟨t, g⟩⟩
    · simp at hg
    · norm_num [mk_low_event, firstS, lastS, roundTo, roundHalfEven]
    · simp at hg

/-- C4 witness: the single-sample idle run of `dfC6` has duration exactly 0. -/
theorem c4_witness : (mk_idle_event [⟨0, 0, 0⟩]).duration = 0 :=
  ((c4_duration 10 dfC6).1 [⟨0, 0, 0⟩]
    (by norm_num [group_rows, run_ids, run_ids_from, is_idle, chunk_pairs,
      dfC6])).2.2.2 rfl

/-- C8 counterexample: in `dfC8` hour 0 has three samples with one running, so
the mean of `is_running` is 1/3; the claim's value (mean × 100 rounded to 2
decimal places) is 33.33, but the source (lines 217-219) first rounds the mean
to 2 decimal places and only then scales, reporting 33. -/
theorem c8_counterexample :
    hourly_stats 0 0 0 23 dfC8 0 = some ⟨233 / 100, 5, 1, 33, 0⟩ ∧
    claimed_hour_uptime (hour_rows 0 0 0 23 0 dfC8) = 3333 / 100 ∧
    ((33 : ℚ) ≠ 3333 / 100) := by
  refine ⟨?_, ?_, by norm_num⟩
  · norm_num [hourly_stats, hourly_stat, hour_rows, filtered_df, dfC8, date_of,
      hour_of, is_running, qMin, qMax, firstS, lastS, roundTo, roundHalfEven,
      List.filter]
  · norm_num [claimed_hour_uptime, hour_rows, filtered_df, dfC8, date_of,
      hour_of, is_running, roundTo, roundHalfEven, List.filter]

/-- C8 (amended): every hour of day with at least one sample in the filtered
window is mapped to its mean/max/min speed and production delta (last minus
first quantity, 0 for a one-sample hour), each rounded to 2 decimal places,
and to an uptime percent obtained by rounding the mean of `is_running` to 2
decimal places, multiplying by 100 and rounding to 1 decimal place (so whole
percent, not mean × 100 to 2 decimals); hours with no samples are absent. -/
theorem c8_hourly (sd ed sh eh h : ℕ) (df : List Sample) :
    (hour_rows sd ed sh eh h df = [] → hourly_stats sd ed sh eh df h = none) ∧
    (hour_rows sd ed sh eh h df ≠ [] →
      hourly_stats sd ed sh eh df h = some
        { avg_speed := roundTo 2
            (((hour_rows sd ed sh eh h df).map Sample.speed).sum /
              (((hour_rows sd ed sh eh h df).length : ℚ)))
          max_speed := roundTo 2 (qMax ((hour_rows sd ed sh eh h df).map Sample.speed))
          min_speed := roundTo 2 (qMin ((hour_rows sd ed sh eh h df).map Sample.speed))
          uptime_percent := roundTo 1 (roundTo 2
            (((hour_rows sd ed sh eh h df).countP is_running : ℚ) /
              (((hour_rows sd ed sh eh h df).length : ℚ))) * 100)
          production := roundTo 2
            (if 1 < (hour_rows sd ed sh eh h df).length then
              (lastS (hour_rows sd ed sh eh h df)).quantity -
                (firstS (hour_rows sd ed sh eh h df)).quantity
            else 0) }) := by
  constructor
  · intro hrows
    simp [hourly_stats, hrows]
  · intro hrows
    rw [hourly_stats, if_neg (by simpa [List.isEmpty_iff] using hrows)]
    simp only [hourly_stat, List.length_map]

/-- C8 witness: on `dfC8` with the full-day window, hour 0 is reported with
average speed 2.33, max 5, min 1, uptime 33 percent and production 0, and
hour 1 (no samples) is absent. -/
theorem c8_witness :
    hourly_stats 0 0 0 23 dfC8 0 = some ⟨233 / 100, 5, 1, 33, 0⟩ ∧
    hourly_stats 0 0 0 23 dfC8 1 = none := by
  constructor
  · rw [(c8_hourly 0 0 0 23 0 dfC8).2
      (by simp [hour_rows, filtered_df, dfC8, date_of, hour_of, List.filter])]
    norm_num [hour_rows, filtered_df, dfC8, date_of, hour_of, is_running,
      qMin, qMax, firstS, lastS, roundTo, roundHalfEven, List.filter]
  · exact (c8_hourly 0 0 0 23 1 dfC8).1
      (by norm_num [hour_rows, filtered_df, dfC8, date_of, hour_of, List.filter])

end Machine
